import Mathlib

/-!
Verification of the raydiumpoolsubscription watcher.

The development is a shallow embedding of the three Rust source files:
the subscription-mode monitor (alternate_main3.rs), the diff-polling
listener (alternate_main.rs) and the polling variant with the standalone
store function (main.rs).  Machine floats only flow through the code
unchanged (serde's `as_f64` then storage), so amounts are modelled as
rationals; the `u64 -> u8` cast on decimals is modelled as `% 256`.
File contents are modelled as character lists; the effect of each store
operation on the file is given as a pure function of the old content.
-/

namespace Raydium

/-- LP-owner authority constant (alternate_main3.rs line 21, main.rs line 42). -/
def LP_OWNER : String := "5Q544fKrFoe6tsEbD7S8EmxGTJYAKtTVhAW5Q5pge4j1"

/-- Quote mint constant (wrapped SOL; alternate_main3.rs line 22, main.rs line 43). -/
def WSOL_MINT : String := "So11111111111111111111111111111111111111112"

/-- The `uiTokenAmount` sub-object of a post-token-balance JSON record.
A field is `none` when it is absent or not of the numeric type the code
asks for, so that serde_json's `as_u64()` / `as_f64()` return `None`. -/
structure UiAmount where
  decimals : Option Nat
  uiAmount : Option ℚ
deriving DecidableEq, Repr

/-- One entry of `meta.post_token_balances`, holding exactly the JSON fields
that `extract_token_info` reads.  A field is `none` when absent, in which
case serde_json's indexing yields `Null` and `as_str()` returns `None`. -/
structure BalanceRecord where
  owner : Option String
  mint : Option String
  uiTokenAmount : UiAmount
deriving DecidableEq, Repr

/-- The `TokenInfo` struct of alternate_main3.rs (lines 31-36). -/
structure TokenInfo where
  address : String
  decimals : Nat
  lp_amount : ℚ
deriving DecidableEq, Repr

/-- The closure passed to `.find` in `extract_token_info`
(alternate_main3.rs lines 117-126): the record's owner must equal
`LP_OWNER`, and its mint must equal `WSOL_MINT` when the quote side is
requested, or differ from it when the base side is requested. -/
def matchesBalance (is_quote : Bool) (b : BalanceRecord) : Bool :=
  b.owner.getD "" == LP_OWNER &&
    (if is_quote then b.mint.getD "" == WSOL_MINT else b.mint.getD "" != WSOL_MINT)

/-- Error values of the pipeline, one constructor per `anyhow!` site or
I/O failure source in alternate_main3.rs. -/
inductive PipeError where
  | transport (msg : String)
  | noSignatureInLogs
  | noSigner
  | noTransactionMetadata
  | tokenInfoNotFound
  | storeIo
  | logIo
deriving DecidableEq, Repr

/-- The `TokenInfo` built from a found balance record, exactly as in
alternate_main3.rs lines 129-137: `mint` via `as_str().unwrap_or_default()`,
`decimals` via `as_u64().unwrap_or_default() as u8` (the cast truncates
modulo 256) and `uiAmount` via `as_f64().unwrap_or_default()`. -/
def recordInfo (b : BalanceRecord) : TokenInfo :=
  { address := b.mint.getD ""
  , decimals := b.uiTokenAmount.decimals.getD 0 % 256
  , lp_amount := b.uiTokenAmount.uiAmount.getD 0 }

/-- `TokenMonitor::extract_token_info` (alternate_main3.rs lines 114-138).
The first component is the returned `Result`; the second component is the
list of warning-level log lines the call emits.  The source body contains
no log invocation on any path, so that list is empty in both branches. -/
def extract_token_info (balances : List BalanceRecord) (is_quote : Bool) :
    Except PipeError TokenInfo × List String :=
  match balances.find? (matchesBalance is_quote) with
  | none => (Except.error PipeError.tokenInfoNotFound, [])
  | some b => (Except.ok (recordInfo b), [])

/-- Transaction execution metadata: `err` is `some` when the transaction
failed on chain, and `post_token_balances` is the decoded balance list. -/
structure TransactionMeta where
  err : Option String
  post_token_balances : List BalanceRecord
deriving DecidableEq, Repr

/-- The fetched transaction as read by `parse_transaction`:
`meta` (possibly absent) and `message.account_keys`. -/
structure Transaction where
  meta : Option TransactionMeta
  account_keys : List String
deriving DecidableEq, Repr

/-- Outcome of the `rpc_client.get_transaction` call: either the fetched
transaction or an RPC transport error. -/
inductive FetchResult where
  | ok (tx : Transaction)
  | err (msg : String)
deriving DecidableEq, Repr

/-- The record assembled by `parse_transaction` and serialized by
`store_data` (struct literal in alternate_main3.rs lines 105-111). -/
structure TokenData where
  lp_signature : String
  creator : String
  timestamp : String
  base_info : TokenInfo
  quote_info : TokenInfo
deriving DecidableEq, Repr

/-- `TokenMonitor::parse_transaction` (alternate_main3.rs lines 66-112),
with the RPC call's outcome passed in as `fetch`, the signature as a string
and `Utc::now()` as the `timestamp` parameter.  The `?` on the RPC call
propagates transport errors; the guard `meta.as_ref().map_or(true, |m|
m.err.is_some())` returns `Ok(None)`; the signer is `account_keys.get(0)`
with error `NoSigner`; the metadata lookup errors with
`NoTransactionMetadata` when `meta` is `None`; then the base and then the
quote side are extracted. -/
def parse_transaction (signature timestamp : String) (fetch : FetchResult) :
    Except PipeError (Option TokenData) :=
  match fetch with
  | FetchResult.err m => Except.error (PipeError.transport m)
  | FetchResult.ok tx =>
    if (tx.meta.map fun m => m.err.isSome).getD true then Except.ok none
    else
      match tx.account_keys.head? with
      | none => Except.error PipeError.noSigner
      | some signer =>
        match tx.meta with
        | none => Except.error PipeError.noTransactionMetadata
        | some meta =>
          match (extract_token_info meta.post_token_balances false).1 with
          | Except.error e => Except.error e
          | Except.ok base_info =>
            match (extract_token_info meta.post_token_balances true).1 with
            | Except.error e => Except.error e
            | Except.ok quote_info =>
              Except.ok (some
                { lp_signature := signature
                , creator := signer
                , timestamp := timestamp
                , base_info := base_info
                , quote_info := quote_info })

/-- The notification payload as read by `handle_log_notification`:
`logs["signature"].as_str()`, `none` when absent or not a string. -/
structure Notification where
  signature : Option String
deriving DecidableEq, Repr

/-- The environment one candidate is processed in: the pushed notification,
the outcome the RPC node gives for `get_transaction`, the wall-clock
timestamp, and whether the two file appends (event store, error log)
succeed at the I/O level. -/
structure CandidateEnv where
  logs : Notification
  fetch : FetchResult
  timestamp : String
  storeOk : Bool
  logErrorOk : Bool
deriving DecidableEq, Repr

/-- Effect of `TokenMonitor::store_data` (alternate_main3.rs lines 140-151)
on the data file: the file is opened with `create(true).append(true)` and
the serialized record plus a newline is written at the end. -/
def store_data (content : List Char) (json : List Char) : List Char :=
  content ++ json ++ ['\n']

/-- Effect of the standalone `store_data` of main.rs (lines 121-136) on the
file: the file is opened with `write(true).create(true)` — not append mode —
so the cursor starts at offset 0 and the existing bytes are not truncated;
`writeln!` therefore overwrites the head of the file with the record plus a
newline, and only the remainder of the old content survives. -/
def main_store_data (content : List Char) (json : List Char) : List Char :=
  json ++ ['\n'] ++ content.drop (json.length + 1)

/-- `TokenMonitor::handle_log_notification` (alternate_main3.rs lines
195-212), acting on the event store modelled as the list of appended
records: read the signature from the logs (error when absent), parse the
transaction, store the data when a record was produced (an I/O failure of
the append is `storeIo`), and return the new store contents. -/
def handle_log_notification (env : CandidateEnv) (store : List TokenData) :
    Except PipeError (List TokenData) :=
  match env.logs.signature with
  | none => Except.error PipeError.noSignatureInLogs
  | some sig =>
    match parse_transaction sig env.timestamp env.fetch with
    | Except.error e => Except.error e
    | Except.ok none => Except.ok store
    | Except.ok (some td) =>
      if env.storeOk then Except.ok (store ++ [td])
      else Except.error PipeError.storeIo

/-- The message carried by each error value, matching the `anyhow!` format
strings of the source. -/
def errMsg : PipeError → String
  | PipeError.transport m => m
  | PipeError.noSignatureInLogs => "No signature in logs"
  | PipeError.noSigner => "No signer found"
  | PipeError.noTransactionMetadata => "No transaction metadata"
  | PipeError.tokenInfoNotFound => "Token info not found"
  | PipeError.storeIo => "event store io error"
  | PipeError.logIo => "error log io error"

/-- The line `TokenMonitor::log_error` (alternate_main3.rs lines 153-168)
appends to the error log file. -/
def errorLogEntry (e : PipeError) (ts : String) : String :=
  "Error occurred: " ++ errMsg e ++ "\nTimestamp: " ++ ts ++ "\n"

/-- Persistent state of one monitoring run: the event store records and the
failure-log lines. -/
structure MonState where
  eventStore : List TokenData
  errorLog : List String
deriving DecidableEq, Repr

/-- The body of the receive loop in `monitor_new_tokens` (alternate_main3.rs
lines 185-190): `handle_log_notification` is called; on error, `log_error`
appends a line to the error log — and the `?` on that call propagates its
own I/O failure (`logIo`) out of the loop. -/
def processCandidate (env : CandidateEnv) (st : MonState) :
    Except PipeError MonState :=
  match handle_log_notification env st.eventStore with
  | Except.ok store1 => Except.ok { eventStore := store1, errorLog := st.errorLog }
  | Except.error e =>
    if env.logErrorOk then
      Except.ok { eventStore := st.eventStore
                , errorLog := st.errorLog ++ [errorLogEntry e env.timestamp] }
    else Except.error PipeError.logIo

/-- The receive loop of `TokenMonitor::monitor_new_tokens` (alternate_main3.rs
lines 170-193), over the finite sequence of notifications the channel
delivers before the Gateway closes it: `while let Some(logs) =
notification_receiver.recv().await` processes each candidate; when the
channel is exhausted (recv returns `None`) the loop ends and the function
returns `Ok(())` with the final state. -/
def monitor_new_tokens : List CandidateEnv → MonState → Except PipeError MonState
  | [], st => Except.ok st
  | env :: rest, st =>
    match processCandidate env st with
    | Except.ok st1 => monitor_new_tokens rest st1
    | Except.error e => Except.error e

/-- One iteration of the loop in `RaydiumPoolListener::start_listening`
(alternate_main.rs lines 38-56): every pool of the current snapshot that is
not in the known set is emitted (`process_new_pool`), and then the known
set is replaced by the current snapshot (`known_pools = current_pools`).
Returns the emitted pools and the new known set. -/
def start_listening_tick (known_pools current_pools : List String) :
    List String × List String :=
  (current_pools.filter fun pool => !known_pools.contains pool, current_pools)

/-! ### Concrete sample data used by witnesses and counterexamples -/

/-- A quote-side balance record: LP-owner owned, quote mint, decimals 9,
uiAmount 5.0 (the spec's synthetic pairing example). -/
def qRec : BalanceRecord :=
  { owner := some LP_OWNER, mint := some WSOL_MINT
  , uiTokenAmount := { decimals := some 9, uiAmount := some 5 } }

/-- A base-side balance record: LP-owner owned, a non-quote mint, decimals 6,
uiAmount 1000.0 (the spec's synthetic pairing example). -/
def bRec : BalanceRecord :=
  { owner := some LP_OWNER, mint := some "BASEMINT1111111111111111111111111111111111"
  , uiTokenAmount := { decimals := some 6, uiAmount := some 1000 } }

/-- A successful transaction carrying both sample balance records. -/
def goodTx : Transaction :=
  { meta := some { err := none, post_token_balances := [qRec, bRec] }
  , account_keys := ["CREATOR"] }

/-- A candidate whose processing fully succeeds. -/
def goodEnv : CandidateEnv :=
  { logs := { signature := some "SIG" }, fetch := FetchResult.ok goodTx
  , timestamp := "T", storeOk := true, logErrorOk := true }

/-- The record `goodEnv` makes the pipeline store. -/
def goodTd : TokenData :=
  { lp_signature := "SIG", creator := "CREATOR", timestamp := "T"
  , base_info := recordInfo bRec, quote_info := recordInfo qRec }

/-- A candidate whose handling fails (transport error on the fetch) while
the error-log append itself also fails at the I/O level. -/
def logFailEnv : CandidateEnv :=
  { logs := { signature := some "SIG" }, fetch := FetchResult.err "rpc down"
  , timestamp := "T", storeOk := true, logErrorOk := false }

/-- A candidate whose handling fails (transport error on the fetch) while
the error-log append succeeds. -/
def failingEnv : CandidateEnv :=
  { logs := { signature := some "SIG" }, fetch := FetchResult.err "rpc down"
  , timestamp := "T", storeOk := true, logErrorOk := true }

/-- A successful transaction whose balance records hold only the quote side. -/
def quoteOnlyTx : Transaction :=
  { meta := some { err := none, post_token_balances := [qRec] }
  , account_keys := ["CREATOR"] }

/-- A candidate referring to `quoteOnlyTx`. -/
def quoteOnlyEnv : CandidateEnv :=
  { logs := { signature := some "SIG" }, fetch := FetchResult.ok quoteOnlyTx
  , timestamp := "T", storeOk := true, logErrorOk := true }

/-- A transaction whose execution metadata records an on-chain failure. -/
def failedTx : Transaction :=
  { meta := some { err := some "InstructionError", post_token_balances := [qRec, bRec] }
  , account_keys := ["CREATOR"] }

/-- A candidate referring to `failedTx`. -/
def failedTxEnv : CandidateEnv :=
  { logs := { signature := some "SIG" }, fetch := FetchResult.ok failedTx
  , timestamp := "T", storeOk := true, logErrorOk := true }

/-- A base-side balance record whose `uiTokenAmount` lacks both the
`decimals` and the `uiAmount` sub-field. -/
def noNumRec : BalanceRecord :=
  { owner := some LP_OWNER, mint := some "BASEMINT1111111111111111111111111111111111"
  , uiTokenAmount := { decimals := none, uiAmount := none } }

/-- All candidates in the list have a working error-log append. -/
def allLogWritesOk (envs : List CandidateEnv) : Bool :=
  envs.all fun e => e.logErrorOk

/-! ### General lemmas about the embedded operations -/

theorem find?_eq_head?_filter {α : Type} (p : α → Bool) (l : List α) :
    l.find? p = (l.filter p).head? := by
  induction l with
  | nil => rfl
  | cons a l ih =>
    by_cases h : p a = true
    · rw [List.find?_cons_of_pos _ h, List.filter_cons_of_pos h, List.head?_cons]
    · rw [List.find?_cons_of_neg _ (by simp [h]), List.filter_cons_of_neg (by simp [h]), ih]

theorem extract_token_info_cases (bs : List BalanceRecord) (q : Bool) :
    (extract_token_info bs q).1 = Except.error PipeError.tokenInfoNotFound ∨
      ∃ t, (extract_token_info bs q).1 = Except.ok t := by
  cases h : bs.find? (matchesBalance q) with
  | none => left; simp only [extract_token_info, h]
  | some b => right; exact ⟨recordInfo b, by simp only [extract_token_info, h]⟩

/-! ### Claim C1 -/

/-- C1, counterexample.  The claim says the Event Store contains at most one
record per transaction signature.  Processing the same candidate (signature
"SIG") twice appends two records with that signature: the pipeline performs
no dedup check before storing. -/
theorem C1_counterexample :
    monitor_new_tokens [goodEnv, goodEnv] ⟨[], []⟩ =
        Except.ok ⟨[goodTd, goodTd], []⟩ ∧
    goodTd.lp_signature = "SIG" ∧
    ([goodTd, goodTd].filter fun d => d.lp_signature == "SIG").length = 2 :=
  ⟨rfl, rfl, rfl⟩

/-- C1, amended: every successfully extracted candidate is appended to the
Event Store unconditionally — there is no dedup by signature, so a candidate
whose signature is already recorded is appended again and the store may hold
several records for one signature. -/
theorem C1_no_dedup (env : CandidateEnv) (st : MonState) (sig : String)
    (td : TokenData)
    (hsig : env.logs.signature = some sig)
    (hparse : parse_transaction sig env.timestamp env.fetch = Except.ok (some td))
    (hstore : env.storeOk = true)
    (_hdup : (st.eventStore.any fun d => d.lp_signature == td.lp_signature) = true) :
    processCandidate env st = Except.ok ⟨st.eventStore ++ [td], st.errorLog⟩ := by
  simp only [processCandidate, handle_log_notification, hsig, hparse, hstore, if_true]

/-- C1 witness: the amended theorem applied to a store that already holds a
record with signature "SIG"; the same record is appended a second time. -/
theorem C1_no_dedup_witness :
    goodEnv.logs.signature = some "SIG" ∧
    parse_transaction "SIG" goodEnv.timestamp goodEnv.fetch =
        Except.ok (some goodTd) ∧
    goodEnv.storeOk = true ∧
    ((MonState.mk [goodTd] []).eventStore.any
        fun d => d.lp_signature == goodTd.lp_signature) = true ∧
    processCandidate goodEnv ⟨[goodTd], []⟩ =
        Except.ok ⟨[goodTd] ++ [goodTd], []⟩ :=
  ⟨rfl, rfl, rfl, rfl, C1_no_dedup goodEnv ⟨[goodTd], []⟩ "SIG" goodTd rfl rfl rfl rfl⟩

/-! ### Claim C2 -/

/-- C2: the claim says every call of the store's append operation opens the
log in append mode and leaves the old content as a prefix of the new.  The
`store_data` of main.rs opens the file with `write(true)` (no `append`), so
with existing content "OLDRECORD1" and record "NEW" the call produces
"NEW\nECORD1": the head of the log is destroyed and the old content is not
a prefix of the new.  The `store_data` of alternate_main3.rs (append mode)
does preserve the old content on the same input. -/
theorem C2_main_store_overwrites :
    main_store_data ("OLDRECORD1".toList) ("NEW".toList) = "NEW\nECORD1".toList ∧
    (main_store_data ("OLDRECORD1".toList) ("NEW".toList)).take 10 ≠
        "OLDRECORD1".toList ∧
    (store_data ("OLDRECORD1".toList) ("NEW".toList)).take 10 =
        "OLDRECORD1".toList :=
  ⟨by decide, by decide, by decide⟩

/-! ### Claim C4 -/

/-- C4, counterexample.  The claim says a failure inside the failure-logging
operation never aborts its caller and no per-candidate error propagates out
of the processing loop.  With one failing candidate whose error-log append
itself fails, the `?` on `self.log_error(&err).await` propagates the I/O
error out of the receive loop. -/
theorem C4_counterexample :
    monitor_new_tokens [logFailEnv] ⟨[], []⟩ = Except.error PipeError.logIo :=
  rfl

/-- C4, amended: every error arising while processing a single candidate is
caught at the loop boundary, converted to a failure-log entry, and the loop
continues — provided the failure-log append itself succeeds for every
candidate; when a failure-log append fails, that error propagates out of
the loop. -/
theorem C4_loop_isolation (envs : List CandidateEnv) (st : MonState)
    (h : allLogWritesOk envs = true) :
    (monitor_new_tokens envs st).isOk = true := by
  induction envs generalizing st with
  | nil => rfl
  | cons env rest ih =>
    simp only [allLogWritesOk, List.all_cons, Bool.and_eq_true] at h
    have henv : env.logErrorOk = true := h.1
    have hrest : allLogWritesOk rest = true := h.2
    cases hh : handle_log_notification env st.eventStore with
    | ok store1 =>
      simp only [monitor_new_tokens, processCandidate, hh]
      exact ih _ hrest
    | error e =>
      simp only [monitor_new_tokens, processCandidate, hh, henv, if_true]
      exact ih _ hrest

/-- C4 witness: the amended theorem applied to a run of one failing
candidate whose error-log append succeeds; the loop completes normally. -/
theorem C4_loop_isolation_witness :
    allLogWritesOk [failingEnv] = true ∧
    (monitor_new_tokens [failingEnv] ⟨[], []⟩).isOk = true :=
  ⟨rfl, C4_loop_isolation [failingEnv] ⟨[], []⟩ rfl⟩

/-! ### Claim C5 -/

/-- C5, counterexample.  The claim says that when the notification channel
is closed the Detector propagates a retryable failure and never terminates
as a normal, non-error completion.  When the channel delivers no further
message, the `while let` loop of `monitor_new_tokens` ends and the function
returns `Ok`, i.e. a normal completion. -/
theorem C5_counterexample :
    monitor_new_tokens [] ⟨[], []⟩ = Except.ok ⟨[], []⟩ :=
  rfl

/-- C5, amended: when the subscription's notification channel is closed by
the Gateway, `monitor_new_tokens` ends its receive loop and returns `Ok`
with the state unchanged from that point — a silent, non-error completion;
no retryable failure is propagated to the caller. -/
theorem C5_closed_channel_silent (st : MonState) :
    monitor_new_tokens [] st = Except.ok st :=
  rfl

/-! ### Claim C3 -/

/-- C3: for a successful transaction whose balance records hold exactly one
LP-owner-owned record with the quote mint and exactly one LP-owner-owned
record with a different mint, extraction returns a record whose quote-side
`TokenInfo` takes address, decimals and amount from the quote-mint record
and whose base-side `TokenInfo` takes them from the other LP-owned record. -/
theorem C3_pairing (sig ts signer : String) (rest : List String)
    (m : TransactionMeta) (q b : BalanceRecord)
    (herr : m.err = none)
    (hq : m.post_token_balances.filter (matchesBalance true) = [q])
    (hb : m.post_token_balances.filter (matchesBalance false) = [b]) :
    parse_transaction sig ts (FetchResult.ok ⟨some m, signer :: rest⟩) =
      Except.ok (some ⟨sig, signer, ts, recordInfo b, recordInfo q⟩) := by
  have hfq : m.post_token_balances.find? (matchesBalance true) = some q := by
    rw [find?_eq_head?_filter, hq]; rfl
  have hfb : m.post_token_balances.find? (matchesBalance false) = some b := by
    rw [find?_eq_head?_filter, hb]; rfl
  simp [parse_transaction, extract_token_info, hfq, hfb, herr]

/-- C3 witness: the theorem applied to the spec's synthetic transaction —
quote record (decimals 9, amount 5.0) and base record (decimals 6, amount
1000.0), both LP-owner owned. -/
theorem C3_pairing_witness :
    (({ err := none, post_token_balances := [qRec, bRec] } :
        TransactionMeta).err = none) ∧
    [qRec, bRec].filter (matchesBalance true) = [qRec] ∧
    [qRec, bRec].filter (matchesBalance false) = [bRec] ∧
    parse_transaction "SIG" "T" (FetchResult.ok goodTx) =
        Except.ok (some ⟨"SIG", "CREATOR", "T", recordInfo bRec, recordInfo qRec⟩) ∧
    recordInfo qRec = ⟨WSOL_MINT, 9, 5⟩ ∧
    recordInfo bRec = ⟨"BASEMINT1111111111111111111111111111111111", 6, 1000⟩ :=
  ⟨rfl, by decide, by decide,
   C3_pairing "SIG" "T" "CREATOR" [] ⟨none, [qRec, bRec]⟩ qRec bRec rfl
     (by decide) (by decide),
   rfl, rfl⟩

/-! ### Claim C6 -/

/-- C6: on each tick of the diff-polling strategy the set of emitted
candidates is exactly the current snapshot minus the known set, the known
set is afterwards replaced by (not unioned with) the snapshot, and in the
concrete scenario with known set {A, B} and snapshot {A, B, C} exactly the
one candidate C is emitted. -/
theorem C6_diff_polling (known current : List String) :
    ((start_listening_tick known current).1).toFinset =
        current.toFinset \ known.toFinset ∧
    (start_listening_tick known current).2 = current ∧
    (start_listening_tick ["A", "B"] ["A", "B", "C"]).1 = ["C"] := by
  refine ⟨?_, rfl, by decide⟩
  ext x
  simp [start_listening_tick, List.mem_filter]

/-! ### Claim C7 -/

/-- C7: a successful transaction whose balance records lack the LP-owned
quote-mint record or the LP-owned other-mint record makes extraction fail
with the incomplete-balances error ("Token info not found"); no record is
stored and exactly one entry is appended to the failure log. -/
theorem C7_incomplete_balances (env : CandidateEnv) (st : MonState)
    (sig signer : String) (rest : List String) (m : TransactionMeta)
    (hsig : env.logs.signature = some sig)
    (hfetch : env.fetch = FetchResult.ok ⟨some m, signer :: rest⟩)
    (herr : m.err = none)
    (hmissing : m.post_token_balances.find? (matchesBalance true) = none ∨
                m.post_token_balances.find? (matchesBalance false) = none)
    (hlog : env.logErrorOk = true) :
    processCandidate env st =
      Except.ok ⟨st.eventStore,
        st.errorLog ++ [errorLogEntry PipeError.tokenInfoNotFound env.timestamp]⟩ := by
  have hparse : parse_transaction sig env.timestamp env.fetch =
      Except.error PipeError.tokenInfoNotFound := by
    rcases hmissing with hqm | hbm
    · cases hfb : m.post_token_balances.find? (matchesBalance false) with
      | none => simp [parse_transaction, hfetch, herr, extract_token_info, hfb]
      | some b =>
        simp [parse_transaction, hfetch, herr, extract_token_info, hfb, hqm]
    · simp [parse_transaction, hfetch, herr, extract_token_info, hbm]
  simp [processCandidate, handle_log_notification, hsig, hparse, hlog]

/-- C7 witness: the theorem applied to a successful transaction whose only
balance record is the quote side, with an empty initial state; the store
stays empty and the failure log gains exactly one entry. -/
theorem C7_incomplete_balances_witness :
    quoteOnlyEnv.logs.signature = some "SIG" ∧
    quoteOnlyEnv.fetch = FetchResult.ok ⟨some ⟨none, [qRec]⟩, ["CREATOR"]⟩ ∧
    (({ err := none, post_token_balances := [qRec] } :
        TransactionMeta).err = none) ∧
    ([qRec] : List BalanceRecord).find? (matchesBalance false) = none ∧
    quoteOnlyEnv.logErrorOk = true ∧
    processCandidate quoteOnlyEnv ⟨[], []⟩ =
      Except.ok ⟨[], [errorLogEntry PipeError.tokenInfoNotFound "T"]⟩ :=
  ⟨rfl, rfl, rfl, by decide, rfl,
   C7_incomplete_balances quoteOnlyEnv ⟨[], []⟩ "SIG" "CREATOR" []
     ⟨none, [qRec]⟩ rfl rfl rfl (Or.inr (by decide)) rfl⟩

/-! ### Claim C8 -/

/-- C8: a candidate whose transaction metadata records an on-chain failure
is discarded as not-an-event: extraction returns no record and no error, and
neither the event store nor the failure log changes. -/
theorem C8_failed_tx_discarded (env : CandidateEnv) (st : MonState)
    (sig : String) (tx : Transaction) (m : TransactionMeta) (e : String)
    (hsig : env.logs.signature = some sig)
    (hfetch : env.fetch = FetchResult.ok tx)
    (hm : tx.meta = some m) (herr : m.err = some e) :
    processCandidate env st = Except.ok st := by
  have hparse : parse_transaction sig env.timestamp env.fetch = Except.ok none := by
    simp [parse_transaction, hfetch, hm, herr]
  simp [processCandidate, handle_log_notification, hsig, hparse]

/-- C8 witness: the theorem applied to a transaction carrying an
`InstructionError` in its metadata; the state is returned unchanged. -/
theorem C8_failed_tx_discarded_witness :
    failedTxEnv.logs.signature = some "SIG" ∧
    failedTxEnv.fetch = FetchResult.ok failedTx ∧
    failedTx.meta =
        some { err := some "InstructionError", post_token_balances := [qRec, bRec] } ∧
    (({ err := some "InstructionError", post_token_balances := [qRec, bRec] } :
        TransactionMeta).err = some "InstructionError") ∧
    processCandidate failedTxEnv ⟨[goodTd], ["L"]⟩ = Except.ok ⟨[goodTd], ["L"]⟩ :=
  ⟨rfl, rfl, rfl, rfl,
   C8_failed_tx_discarded failedTxEnv ⟨[goodTd], ["L"]⟩ "SIG" failedTx
     ⟨some "InstructionError", [qRec, bRec]⟩ "InstructionError" rfl rfl rfl rfl⟩

/-! ### Claim C9 -/

/-- C9, counterexample.  The claim says a selected balance record with an
absent decimals or amount sub-field yields a zero-defaulted `TokenInfo`
and a logged warning about the defaulted field.  On a record lacking both
sub-fields the extraction does default both to zero, but its warning trace
is empty: the source body contains no log call, so no warning is logged. -/
theorem C9_counterexample :
    extract_token_info [noNumRec] false =
      (Except.ok ⟨"BASEMINT1111111111111111111111111111111111", 0, 0⟩,
        ([] : List String)) ∧
    (extract_token_info [noNumRec] false).2 = [] :=
  ⟨rfl, rfl⟩

/-- C9, amended: when the decimals or amount sub-field of the selected
balance record is absent, extraction does not abort and returns a
`TokenInfo` with that field defaulted to zero — but no warning is logged
(the warning trace is empty). -/
theorem C9_default_no_warning (bs : List BalanceRecord) (q : Bool)
    (b : BalanceRecord)
    (hfind : bs.find? (matchesBalance q) = some b) :
    (extract_token_info bs q).1 = Except.ok (recordInfo b) ∧
    (extract_token_info bs q).2 = [] ∧
    (b.uiTokenAmount.decimals = none → (recordInfo b).decimals = 0) ∧
    (b.uiTokenAmount.uiAmount = none → (recordInfo b).lp_amount = 0) := by
  refine ⟨by simp only [extract_token_info, hfind],
          by simp only [extract_token_info, hfind], ?_, ?_⟩
  · intro h; simp [recordInfo, h]
  · intro h; simp [recordInfo, h]

/-- C9 witness: the amended theorem applied to a record whose
`uiTokenAmount` lacks both sub-fields; both come back as zero and the
warning trace is empty. -/
theorem C9_default_no_warning_witness :
    ([noNumRec] : List BalanceRecord).find? (matchesBalance false) =
        some noNumRec ∧
    (extract_token_info [noNumRec] false).1 = Except.ok (recordInfo noNumRec) ∧
    (extract_token_info [noNumRec] false).2 = [] ∧
    (recordInfo noNumRec).decimals = 0 ∧
    (recordInfo noNumRec).lp_amount = 0 :=
  ⟨by decide,
   (C9_default_no_warning [noNumRec] false noNumRec (by decide)).1,
   (C9_default_no_warning [noNumRec] false noNumRec (by decide)).2.1,
   (C9_default_no_warning [noNumRec] false noNumRec (by decide)).2.2.1 rfl,
   (C9_default_no_warning [noNumRec] false noNumRec (by decide)).2.2.2 rfl⟩

/-! ### Claim C10 -/

/-- C10: the "No transaction metadata" branch of `parse_transaction` is
unreachable — when the metadata is absent the earlier guard has already
returned the not-an-event result, so for every fetched transaction the
function never fails with `noTransactionMetadata`. -/
theorem C10_meta_branch_unreachable (sig ts : String) (fetch : FetchResult) :
    parse_transaction sig ts fetch ≠
      Except.error PipeError.noTransactionMetadata := by
  cases fetch with
  | err m => simp [parse_transaction]
  | ok tx =>
    cases hm : tx.meta with
    | none => simp [parse_transaction, hm]
    | some m =>
      by_cases he : m.err.isSome = true
      · simp [parse_transaction, hm, he]
      · cases hk : tx.account_keys.head? with
        | none => simp [parse_transaction, hm, he, hk]
        | some signer =>
          rcases extract_token_info_cases m.post_token_balances false with
            hbase | ⟨tb, hbase⟩
          · simp [parse_transaction, hm, he, hk, hbase]
          · rcases extract_token_info_cases m.post_token_balances true with
              hquote | ⟨tq, hquote⟩
            · simp [parse_transaction, hm, he, hk, hbase, hquote]
            · simp [parse_transaction, hm, he, hk, hbase, hquote]

end Raydium
